import Mathlib

/-!
Shallow embedding of the OTP-gated registration/verification workflow of the
`playground-api` backend (`service.UserService` in the Go source).

Modelling conventions:
* Database state is a `DB` record of three row lists (users, teams, otps);
  each service call threads an explicit transaction copy `tx` of the state,
  returns the original `db` on every error path (the Go `defer tx.Rollback()`)
  and the mutated `tx` on commit.
* External collaborators (bcrypt, JWT issuance, SMTP send, `uuid` generation,
  the `EXPIRED_OTP` environment lookup, the commit itself) are passed in as
  the result each call would return, so one Lean evaluation models one Go call.
* Times are integers in minutes; `t.Before(u)` is `t < u`.
* Errors are the Go error strings, carried in `Except String`.
* Each function also reports how many mails were successfully sent (0 or 1).
-/

deriving instance DecidableEq for Except

namespace Entity

/-- User row, fields as used by the service (entity definitions are not under
src/; the fields are taken from their uses in the service source and §3 of the
spec: identifier, unique email, password hash, status ∈ {inactive, active},
role id, profile fields, payment-proof reference). -/
structure User where
  userID : Nat
  email : String
  password : String
  statusAccount : String
  roleID : Nat
  fullName : String
  studentNumber : String
  university : String
  major : String
  paymentTransc : String
deriving DecidableEq, Repr

/-- Team row, fields as constructed in `Register`. -/
structure Team where
  teamID : Nat
  teamName : String
  teamStatus : String
  userID : Nat
  competitionID : Nat
deriving DecidableEq, Repr

/-- OtpCode row: identifier, owning user, 6-digit code, last-update time
(set by the store at insert, read by the expiry check). -/
structure OtpCode where
  otpID : Nat
  userID : Nat
  code : String
  updatedAt : Int
deriving DecidableEq, Repr

end Entity

namespace Model

/-- Lookup criteria for `GetUser`; a field left `none` is not constrained
(the Go zero-valued struct field). -/
structure UserParam where
  userID : Option Nat
  email : Option String
deriving DecidableEq, Repr

/-- Lookup criteria for `GetOtp`. -/
structure GetOtp where
  userID : Option Nat
  code : Option String
deriving DecidableEq, Repr

structure UserRegister where
  email : String
  password : String
  confirmPassword : String
deriving DecidableEq, Repr

structure UserLogin where
  email : String
  password : String
deriving DecidableEq, Repr

structure VerifyUser where
  userID : Nat
  otpCode : String
deriving DecidableEq, Repr

structure VerifyToken where
  userID : Nat
  otp : String
deriving DecidableEq, Repr

structure ResetPasswordRequest where
  userID : Nat
  newPassword : String
  confirmPassword : String
deriving DecidableEq, Repr

end Model

/-- The relational state the workflow mutates. -/
structure DB where
  users : List Entity.User
  teams : List Entity.Team
  otps : List Entity.OtpCode
deriving DecidableEq, Repr

namespace Repo

def userMatches (p : Model.UserParam) (u : Entity.User) : Bool :=
  (match p.userID with | some i => u.userID == i | none => true) &&
  (match p.email with | some e => u.email == e | none => true)

/-- Modelled from the spec: the repository implementations are not under src/.
§6: `FindUser(criteria: email? | id?) -> User | NotFound`; the gorm not-found
error string is "record not found". -/
def GetUser (users : List Entity.User) (p : Model.UserParam) :
    Except String Entity.User :=
  match users.find? (userMatches p) with
  | some u => .ok u
  | none => .error "record not found"

/-- Modelled from the spec: §6 `CreateUser(User) -> id | Conflict`; the
success path appends the row. -/
def CreateUser (users : List Entity.User) (u : Entity.User) :
    List Entity.User :=
  users ++ [u]

/-- Modelled from the spec: §6 `UpdateUser(User) -> ok | NotFound`; the
success path replaces the row with the same identifier. -/
def UpdateUser (users : List Entity.User) (u : Entity.User) :
    List Entity.User :=
  users.map (fun v => if v.userID == u.userID then u else v)

/-- Modelled from the spec: §6 (`CreateTeam` analogous to `CreateUser`). -/
def CreateTeam (teams : List Entity.Team) (t : Entity.Team) :
    List Entity.Team :=
  teams ++ [t]

def otpMatches (p : Model.GetOtp) (o : Entity.OtpCode) : Bool :=
  (match p.userID with | some i => o.userID == i | none => true) &&
  (match p.code with | some c => o.code == c | none => true)

/-- Modelled from the spec: §6 `FindOtp(criteria: userID, code?) ->
OtpCode | NotFound`. -/
def GetOtp (otps : List Entity.OtpCode) (p : Model.GetOtp) :
    Except String Entity.OtpCode :=
  match otps.find? (otpMatches p) with
  | some o => .ok o
  | none => .error "record not found"

/-- Modelled from the spec: §6 `CreateOtp(OtpCode) -> ok`; a new issuance
simply adds a row (§3: the store does not enforce uniqueness). -/
def CreateOtp (otps : List Entity.OtpCode) (o : Entity.OtpCode) :
    List Entity.OtpCode :=
  otps ++ [o]

/-- Modelled from the spec: §6 `DeleteOtp(OtpCode) -> ok`; removes the row
with the given identifier. -/
def DeleteOtp (otps : List Entity.OtpCode) (o : Entity.OtpCode) :
    List Entity.OtpCode :=
  otps.filter (fun v => v.otpID != o.otpID)

end Repo

namespace UserService

/-- `UserService.Register` (part_000 lines 63-147).
Oracle arguments carry the result of each external call: `hashRes` for
`BCrypt.GenerateFromPassword`, `idRes` for `uuid.NewUUID`, `tokenRes` for
`JwtAuth.CreateJWTToken`, `teamId`/`otpId` for the two `uuid.New()` calls,
`code` for `mail.GenerateCode`, `otpAt` for the store-assigned timestamp of
the new OTP row, `mailRes` for `mail.SendEmail`, `commitRes` for
`tx.Commit()`. Returns (token or error, final DB, mails sent). -/
def Register (db : DB) (param : Model.UserRegister)
    (hashRes : Except String String) (idRes : Except String Nat)
    (tokenRes : Except String String) (teamId otpId : Nat) (code : String)
    (otpAt : Int) (mailRes : Except String Unit)
    (commitRes : Except String Unit) :
    Except String String × DB × Nat :=
  let tx := db
  match Repo.GetUser db.users ⟨none, some param.email⟩ with
  | .ok _ => (.error "email already registered", db, 0)
  | .error _ =>
  if param.password != param.confirmPassword then
    (.error "password doesn't match", db, 0)
  else
  match hashRes with
  | .error e => (.error e, db, 0)
  | .ok hash =>
  match idRes with
  | .error e => (.error e, db, 0)
  | .ok id =>
  let user : Entity.User :=
    { userID := id, email := param.email, password := hash,
      statusAccount := "inactive", roleID := 2, fullName := "",
      studentNumber := "", university := "", major := "",
      paymentTransc := "" }
  let tx := { tx with users := Repo.CreateUser tx.users user }
  match tokenRes with
  | .error _ => (.error "failed to create token", db, 0)
  | .ok token =>
  let team : Entity.Team :=
    { teamID := teamId, teamName := "", teamStatus := "belum terverifikasi",
      userID := user.userID, competitionID := 1 }
  let tx := { tx with teams := Repo.CreateTeam tx.teams team }
  let otp : Entity.OtpCode :=
    { otpID := otpId, userID := user.userID, code := code, updatedAt := otpAt }
  let tx := { tx with otps := Repo.CreateOtp tx.otps otp }
  match mailRes with
  | .error e => (.error e, db, 0)
  | .ok _ =>
  match commitRes with
  | .error e => (.error e, db, 1)
  | .ok _ => (.ok token, tx, 1)

/-- `UserService.Login` (part_000 lines 149-188). No state is mutated; the
transaction is opened and committed but unused, and a commit error is
swallowed (`return result, nil`), so the commit result does not appear. -/
def Login (db : DB) (param : Model.UserLogin)
    (compareRes : Except String Unit) (tokenRes : Except String String) :
    Except String String × DB :=
  match Repo.GetUser db.users ⟨none, some param.email⟩ with
  | .error _ => (.error "email or password is wrong", db)
  | .ok user =>
  let _isAdmin := user.roleID == 1
  match compareRes with
  | .error _ => (.error "email or password is wrong", db)
  | .ok _ =>
  match tokenRes with
  | .error _ => (.error "failed to create token", db)
  | .ok token => (.ok token, db)

/-- `UserService.VerifyUser` (part_000 lines 221-270).
`envExpired` is the result of `strconv.Atoi(os.Getenv("EXPIRED_OTP"))`,
`now` the value of `time.Now().UTC()` in minutes. -/
def VerifyUser (db : DB) (param : Model.VerifyUser)
    (envExpired : Except String Int) (now : Int)
    (commitRes : Except String Unit) : Except String Unit × DB :=
  let tx := db
  match Repo.GetOtp tx.otps ⟨some param.userID, none⟩ with
  | .error e => (.error e, db)
  | .ok otp =>
  if otp.code != param.otpCode then
    (.error "invalid otp code", db)
  else
  match envExpired with
  | .error e => (.error e, db)
  | .ok expiredTime =>
  let expiredThreshold := now - expiredTime
  if otp.updatedAt < expiredThreshold then
    (.error "otp expired", db)
  else
  match Repo.GetUser db.users ⟨some param.userID, none⟩ with
  | .error e => (.error e, db)
  | .ok user =>
  let user := { user with statusAccount := "active" }
  let tx := { tx with users := Repo.UpdateUser tx.users user }
  let tx := { tx with otps := Repo.DeleteOtp tx.otps otp }
  match commitRes with
  | .error e => (.error e, db)
  | .ok _ => (.ok (), tx)

/-- `UserService.ChangePassword` (part_000 lines 382-419): password-reset
issuance. Note line 410: a token-creation failure returns `("", nil)` —
no error — before the commit, so the transaction rolls back. -/
def ChangePassword (db : DB) (email : String) (code : String) (otpId : Nat)
    (otpAt : Int) (mailRes : Except String Unit)
    (tokenRes : Except String String) (commitRes : Except String Unit) :
    Except String String × DB × Nat :=
  let tx := db
  match Repo.GetUser db.users ⟨none, some email⟩ with
  | .error e => (.error e, db, 0)
  | .ok user =>
  let otp : Entity.OtpCode :=
    { otpID := otpId, userID := user.userID, code := code, updatedAt := otpAt }
  let tx := { tx with otps := Repo.CreateOtp tx.otps otp }
  match mailRes with
  | .error e => (.error e, db, 0)
  | .ok _ =>
  match tokenRes with
  | .error _ => (.ok "", db, 1)
  | .ok jwtToken =>
  match commitRes with
  | .error e => (.error e, db, 1)
  | .ok _ => (.ok jwtToken, tx, 1)

/-- `UserService.VerifyOtpChangePassword` (part_000 lines 421-458): consume
the password-reset OTP; looked up by (user, code), deleted on success,
user row untouched. -/
def VerifyOtpChangePassword (db : DB) (param : Model.VerifyToken)
    (envExpired : Except String Int) (now : Int)
    (commitRes : Except String Unit) : Except String Unit × DB :=
  let tx := db
  match Repo.GetOtp tx.otps ⟨some param.userID, some param.otp⟩ with
  | .error e => (.error e, db)
  | .ok otp =>
  if otp.code != param.otp then
    (.error "invalid token", db)
  else
  match envExpired with
  | .error e => (.error e, db)
  | .ok expiredTime =>
  let expiredThreshold := now - expiredTime
  if otp.updatedAt < expiredThreshold then
    (.error "token expired", db)
  else
  let tx := { tx with otps := Repo.DeleteOtp tx.otps otp }
  match commitRes with
  | .error e => (.error e, db)
  | .ok _ => (.ok (), tx)

/-- `UserService.ChangePasswordAfterVerify` (part_000 lines 460-498).
`hashRes` is the result of hashing the new password; `compareRes` the result
of `BCrypt.CompareAndHashPassword(user.Password, param.NewPassword)` — `.ok`
means the new password matches the old hash (bcrypt returns nil on match). -/
def ChangePasswordAfterVerify (db : DB) (param : Model.ResetPasswordRequest)
    (hashRes : Except String String) (compareRes : Except String Unit)
    (commitRes : Except String Unit) : Except String Unit × DB :=
  let tx := db
  match Repo.GetUser db.users ⟨some param.userID, none⟩ with
  | .error e => (.error e, db)
  | .ok user =>
  if param.newPassword != param.confirmPassword then
    (.error "password mismatch", db)
  else
  match hashRes with
  | .error e => (.error e, db)
  | .ok hashPassword =>
  match compareRes with
  | .ok _ => (.error "new password cannot be same as old password", db)
  | .error _ =>
  let user := { user with password := hashPassword }
  let tx := { tx with users := Repo.UpdateUser tx.users user }
  match commitRes with
  | .error e => (.error e, db)
  | .ok _ => (.ok (), tx)

end UserService

/-- State threaded through a registration step pipeline: the transaction
copy, the number of mails successfully sent so far, the password hash once
computed, the new user's identifier once generated, and the token once
issued. -/
structure RegSteps where
  tx : DB
  mails : Nat
  hash : String
  userID : Nat
  token : String
deriving DecidableEq, Repr

/-- A registration step either advances the pipeline state or aborts with an
error, also reporting how many mails had gone out by then (the mail send is
external and is not rolled back). -/
abbrev RegStep : Type := RegSteps → Except (String × Nat) RegSteps

/-- Run a step list from an initial database: on success, the issued token,
the transaction and the mail count; on abort, the error, the original
database (rollback) and the mails already sent. -/
def runRegSteps (db : DB) (steps : List RegStep) :
    Except String String × DB × Nat :=
  match steps.foldl
      (fun (σ : Except (String × Nat) RegSteps) (f : RegStep) =>
        Except.bind σ f)
      (Except.ok ⟨db, 0, "", 0, ""⟩) with
  | .ok σ => (.ok σ.token, σ.tx, σ.mails)
  | .error (e, m) => (.error e, db, m)

/-- Spec §4.1 step "reject if email taken". -/
def stepRejectTakenEmail (param : Model.UserRegister) : RegStep :=
  fun σ => match Repo.GetUser σ.tx.users ⟨none, some param.email⟩ with
  | .ok _ => .error ("email already registered", σ.mails)
  | .error _ => .ok σ

/-- Spec §4.1 step "reject if passwords differ". -/
def stepRejectPasswordMismatch (param : Model.UserRegister) : RegStep :=
  fun σ =>
    if param.password != param.confirmPassword then
      .error ("password doesn't match", σ.mails)
    else .ok σ

/-- Spec §4.1 step "hash password". -/
def stepHashPassword (hashRes : Except String String) : RegStep :=
  fun σ => match hashRes with
  | .error e => .error (e, σ.mails)
  | .ok h => .ok { σ with hash := h }

/-- Spec §4.1 step "create User(status=inactive, role=participant)". -/
def stepCreateUser (param : Model.UserRegister)
    (idRes : Except String Nat) : RegStep :=
  fun σ => match idRes with
  | .error e => .error (e, σ.mails)
  | .ok id =>
    let row : Entity.User :=
      ⟨id, param.email, σ.hash, "inactive", 2, "", "", "", "", ""⟩
    .ok { σ with tx := { σ.tx with users := Repo.CreateUser σ.tx.users row },
                 userID := id }

/-- Spec §4.1 step "create a default Team placeholder bound to this user". -/
def stepCreateTeam (teamId : Nat) : RegStep :=
  fun σ =>
    let row : Entity.Team := ⟨teamId, "", "belum terverifikasi", σ.userID, 1⟩
    .ok { σ with tx := { σ.tx with teams := Repo.CreateTeam σ.tx.teams row } }

/-- Spec §4.1 step "generate a 6-digit OTP, persist it". -/
def stepCreateOtp (otpId : Nat) (code : String) (otpAt : Int) : RegStep :=
  fun σ =>
    let row : Entity.OtpCode := ⟨otpId, σ.userID, code, otpAt⟩
    .ok { σ with tx := { σ.tx with otps := Repo.CreateOtp σ.tx.otps row } }

/-- Spec §4.1 step "send OTP via Notifier". -/
def stepSendMail (mailRes : Except String Unit) : RegStep :=
  fun σ => match mailRes with
  | .error e => .error (e, σ.mails)
  | .ok _ => .ok { σ with mails := σ.mails + 1 }

/-- Spec §4.1 step "issue an access token for the new (unverified) user". -/
def stepIssueToken (tokenRes : Except String String) : RegStep :=
  fun σ => match tokenRes with
  | .error _ => .error ("failed to create token", σ.mails)
  | .ok t => .ok { σ with token := t }

/-- Spec §4.1 step "commit". -/
def stepCommit (commitRes : Except String Unit) : RegStep :=
  fun σ => match commitRes with
  | .error e => .error (e, σ.mails)
  | .ok _ => .ok σ

/-- The register pipeline in the order the spec states it (§4.1): duplicate
check, password check, hash, create User, create Team, persist OTP, send via
Notifier, issue token, commit. Written from the spec's words, to be compared
with the source-order `UserService.Register`. -/
def RegisterSpecOrder (db : DB) (param : Model.UserRegister)
    (hashRes : Except String String) (idRes : Except String Nat)
    (tokenRes : Except String String) (teamId otpId : Nat) (code : String)
    (otpAt : Int) (mailRes : Except String Unit)
    (commitRes : Except String Unit) : Except String String × DB × Nat :=
  runRegSteps db
    [stepRejectTakenEmail param, stepRejectPasswordMismatch param,
     stepHashPassword hashRes, stepCreateUser param idRes,
     stepCreateTeam teamId, stepCreateOtp otpId code otpAt,
     stepSendMail mailRes, stepIssueToken tokenRes, stepCommit commitRes]

/-- The register pipeline with the one amendment the source forces: token
issuance moved to directly after user creation, before the Team and OTP
writes and before the Notifier send. -/
def RegisterOrderAmended (db : DB) (param : Model.UserRegister)
    (hashRes : Except String String) (idRes : Except String Nat)
    (tokenRes : Except String String) (teamId otpId : Nat) (code : String)
    (otpAt : Int) (mailRes : Except String Unit)
    (commitRes : Except String Unit) : Except String String × DB × Nat :=
  runRegSteps db
    [stepRejectTakenEmail param, stepRejectPasswordMismatch param,
     stepHashPassword hashRes, stepCreateUser param idRes,
     stepIssueToken tokenRes, stepCreateTeam teamId,
     stepCreateOtp otpId code otpAt, stepSendMail mailRes,
     stepCommit commitRes]

section RepoLemmas

theorem getUser_byEmail_absent (users : List Entity.User) (email : String)
    (h : ∀ u ∈ users, u.email ≠ email) :
    Repo.GetUser users ⟨none, some email⟩ = .error "record not found" := by
  have hnone : users.find? (Repo.userMatches ⟨none, some email⟩) = none := by
    rw [List.find?_eq_none]
    intro u hu
    simp [Repo.userMatches]
    exact h u hu
  simp [Repo.GetUser, hnone]

theorem getOtp_after_delete (otps : List Entity.OtpCode)
    (otp : Entity.OtpCode) (uid : Nat)
    (honly : ∀ o ∈ otps, o.userID = uid → o.otpID = otp.otpID) :
    Repo.GetOtp (Repo.DeleteOtp otps otp) ⟨some uid, none⟩ =
      .error "record not found" := by
  have hnone : (Repo.DeleteOtp otps otp).find?
      (Repo.otpMatches ⟨some uid, none⟩) = none := by
    rw [List.find?_eq_none]
    intro o ho
    rw [Repo.DeleteOtp, List.mem_filter] at ho
    obtain ⟨hmem, hne⟩ := ho
    simp [Repo.otpMatches]
    intro huid
    exact absurd (honly o hmem huid) (by simpa using hne)
  simp [Repo.GetOtp, hnone]

theorem getOtp_userCode_absent (otps : List Entity.OtpCode)
    (uid : Nat) (code : String)
    (h : ∀ o ∈ otps, ¬ (o.userID = uid ∧ o.code = code)) :
    Repo.GetOtp otps ⟨some uid, some code⟩ = .error "record not found" := by
  have hnone : otps.find? (Repo.otpMatches ⟨some uid, some code⟩) = none := by
    rw [List.find?_eq_none]
    intro o ho
    simp [Repo.otpMatches]
    intro huid hcode
    exact h o ho ⟨huid, hcode⟩
  simp [Repo.GetOtp, hnone]

end RepoLemmas

/-- Claim C1 (counterexample): with a stored OTP that is already expired
(updatedAt = 0, now = 100, window = 10 minutes, so 0 < 100 - 10) and a
presented code "222222" that differs from the stored "111111", `VerifyUser`
fails with "invalid otp code", not with the "otp expired" error the claim
requires regardless of code correctness: the code-equality check precedes
the expiry check. -/
theorem c1_counterexample :
    (0 : Int) < 100 - 10 ∧
    UserService.VerifyUser
        ⟨[⟨7, "a@x.com", "H", "inactive", 2, "", "", "", "", ""⟩], [],
         [⟨3, 7, "111111", 0⟩]⟩ ⟨7, "222222"⟩ (.ok 10) 100 (.ok ()) =
      (.error "invalid otp code",
       ⟨[⟨7, "a@x.com", "H", "inactive", 2, "", "", "", "", ""⟩], [],
        [⟨3, 7, "111111", 0⟩]⟩) ∧
    (Except.error "invalid otp code" : Except String Unit) ≠
      .error "otp expired" := by
  refine ⟨by decide, by rfl, by decide⟩

/-- Claim C1 (amended): for every `VerifyUser` call where the presented code
equals the stored OTP code and the stored OTP's last-update time is older
than now minus the configured expiry window, the operation fails with the
"otp expired" error and the database — the OTP row and the user's status —
is left unchanged. (With a mismatched code the call instead fails earlier
with "invalid otp code", since the equality check precedes the expiry
check.) -/
theorem c1_expired_match_fails_unchanged
    (db : DB) (param : Model.VerifyUser) (otp : Entity.OtpCode)
    (expiredTime now : Int) (commitRes : Except String Unit)
    (hotp : Repo.GetOtp db.otps ⟨some param.userID, none⟩ = .ok otp)
    (hcode : otp.code = param.otpCode)
    (hexp : otp.updatedAt < now - expiredTime) :
    UserService.VerifyUser db param (.ok expiredTime) now commitRes =
      (.error "otp expired", db) := by
  simp [UserService.VerifyUser, hotp, hcode, hexp]

/-- Witness for `c1_expired_match_fails_unchanged` at a concrete state. -/
theorem c1_witness :
    UserService.VerifyUser
        ⟨[⟨7, "a@x.com", "H", "inactive", 2, "", "", "", "", ""⟩], [],
         [⟨3, 7, "111111", 0⟩]⟩ ⟨7, "111111"⟩ (.ok 10) 100 (.ok ()) =
      (.error "otp expired",
       ⟨[⟨7, "a@x.com", "H", "inactive", 2, "", "", "", "", ""⟩], [],
        [⟨3, 7, "111111", 0⟩]⟩) :=
  c1_expired_match_fails_unchanged _ _ ⟨3, 7, "111111", 0⟩ 10 100 _
    (by rfl) (by rfl) (by decide)

/-- Claim C5: for every `VerifyUser` call where the presented code differs
from the stored OTP code, the operation fails with "invalid otp code" and
returns the database unchanged — the user's status is untouched and the
OtpCode row is not deleted — whatever the expiry configuration, clock or
commit outcome. -/
theorem c5_wrong_code_unchanged
    (db : DB) (param : Model.VerifyUser) (otp : Entity.OtpCode)
    (envExpired : Except String Int) (now : Int)
    (commitRes : Except String Unit)
    (hotp : Repo.GetOtp db.otps ⟨some param.userID, none⟩ = .ok otp)
    (hcode : otp.code ≠ param.otpCode) :
    UserService.VerifyUser db param envExpired now commitRes =
      (.error "invalid otp code", db) := by
  simp [UserService.VerifyUser, hotp, hcode]

/-- Witness for `c5_wrong_code_unchanged` at a concrete state. -/
theorem c5_witness :
    UserService.VerifyUser
        ⟨[⟨7, "a@x.com", "H", "inactive", 2, "", "", "", "", ""⟩], [],
         [⟨3, 7, "111111", 0⟩]⟩ ⟨7, "222222"⟩ (.ok 10) 5 (.ok ()) =
      (.error "invalid otp code",
       ⟨[⟨7, "a@x.com", "H", "inactive", 2, "", "", "", "", ""⟩], [],
        [⟨3, 7, "111111", 0⟩]⟩) :=
  c5_wrong_code_unchanged _ _ ⟨3, 7, "111111", 0⟩ _ 5 _ (by rfl) (by decide)

/-- Claim C4: for every `VerifyUser` call where the presented code equals the
stored OTP code and the OTP is within the expiry window, (i) on commit the
user's status is set to "active" and the OTP row is deleted; (ii) on a commit
failure neither mutation persists, so the two mutations are atomic; and
(iii) when the deleted row was the user's only OTP row, a subsequent
`VerifyUser` for the same user fails with the not-found error because no OTP
row remains. -/
theorem c4_verify_success_atomic
    (db : DB) (param : Model.VerifyUser) (otp : Entity.OtpCode)
    (user : Entity.User) (expiredTime now : Int)
    (hotp : Repo.GetOtp db.otps ⟨some param.userID, none⟩ = .ok otp)
    (hcode : otp.code = param.otpCode)
    (hfresh : ¬ otp.updatedAt < now - expiredTime)
    (huser : Repo.GetUser db.users ⟨some param.userID, none⟩ = .ok user)
    (honly : ∀ o ∈ db.otps, o.userID = param.userID → o.otpID = otp.otpID) :
    UserService.VerifyUser db param (.ok expiredTime) now (.ok ()) =
      (.ok (),
       ⟨Repo.UpdateUser db.users { user with statusAccount := "active" },
        db.teams, Repo.DeleteOtp db.otps otp⟩) ∧
    (∀ e, UserService.VerifyUser db param (.ok expiredTime) now (.error e) =
      (.error e, db)) ∧
    (∀ (param2 : Model.VerifyUser) (env2 : Except String Int) (now2 : Int)
        (commitRes2 : Except String Unit), param2.userID = param.userID →
      (UserService.VerifyUser
          ⟨Repo.UpdateUser db.users { user with statusAccount := "active" },
           db.teams, Repo.DeleteOtp db.otps otp⟩
          param2 env2 now2 commitRes2).1 = .error "record not found") := by
  refine ⟨?_, ?_, ?_⟩
  · simp [UserService.VerifyUser, hotp, hcode, hfresh, huser]
  · intro e
    simp [UserService.VerifyUser, hotp, hcode, hfresh, huser]
  · intro param2 env2 now2 commitRes2 huid
    have hdel := getOtp_after_delete db.otps otp param.userID honly
    rw [← huid] at hdel
    simp [UserService.VerifyUser, hdel]

/-- Witness for `c4_verify_success_atomic` at a concrete state. -/
theorem c4_witness :
    UserService.VerifyUser
        ⟨[⟨7, "a@x.com", "H", "inactive", 2, "", "", "", "", ""⟩], [],
         [⟨3, 7, "111111", 0⟩]⟩ ⟨7, "111111"⟩ (.ok 10) 5 (.ok ()) =
      (.ok (),
       ⟨Repo.UpdateUser [⟨7, "a@x.com", "H", "inactive", 2, "", "", "", "", ""⟩]
          ⟨7, "a@x.com", "H", "active", 2, "", "", "", "", ""⟩, [],
        Repo.DeleteOtp [⟨3, 7, "111111", 0⟩] ⟨3, 7, "111111", 0⟩⟩) ∧
    (∀ e, UserService.VerifyUser
        ⟨[⟨7, "a@x.com", "H", "inactive", 2, "", "", "", "", ""⟩], [],
         [⟨3, 7, "111111", 0⟩]⟩ ⟨7, "111111"⟩ (.ok 10) 5 (.error e) =
      (.error e,
       ⟨[⟨7, "a@x.com", "H", "inactive", 2, "", "", "", "", ""⟩], [],
        [⟨3, 7, "111111", 0⟩]⟩)) ∧
    (∀ (param2 : Model.VerifyUser) (env2 : Except String Int) (now2 : Int)
        (commitRes2 : Except String Unit), param2.userID = 7 →
      (UserService.VerifyUser
          ⟨Repo.UpdateUser [⟨7, "a@x.com", "H", "inactive", 2, "", "", "", "", ""⟩]
             ⟨7, "a@x.com", "H", "active", 2, "", "", "", "", ""⟩, [],
           Repo.DeleteOtp [⟨3, 7, "111111", 0⟩] ⟨3, 7, "111111", 0⟩⟩
          param2 env2 now2 commitRes2).1 = .error "record not found") :=
  c4_verify_success_atomic
    ⟨[⟨7, "a@x.com", "H", "inactive", 2, "", "", "", "", ""⟩], [],
     [⟨3, 7, "111111", 0⟩]⟩ ⟨7, "111111"⟩ ⟨3, 7, "111111", 0⟩
    ⟨7, "a@x.com", "H", "inactive", 2, "", "", "", "", ""⟩ 10 5
    (by rfl) (by rfl) (by decide) (by rfl) (by decide)

/-- Claim C6: for every `Register` call whose email already exists in the
store, the operation fails with "email already registered" and returns the
database unchanged — no User, Team, or OtpCode row is created — for every
choice of the remaining inputs, in particular also when the password and
confirm-password differ, which shows the duplicate-email check runs before
the password comparison. -/
theorem c6_duplicate_email_rejected
    (db : DB) (param : Model.UserRegister) (u : Entity.User)
    (hashRes : Except String String) (idRes : Except String Nat)
    (tokenRes : Except String String) (teamId otpId : Nat) (code : String)
    (otpAt : Int) (mailRes : Except String Unit)
    (commitRes : Except String Unit)
    (hdup : Repo.GetUser db.users ⟨none, some param.email⟩ = .ok u) :
    UserService.Register db param hashRes idRes tokenRes teamId otpId code
        otpAt mailRes commitRes = (.error "email already registered", db, 0) := by
  simp [UserService.Register, hdup]

/-- Witness for `c6_duplicate_email_rejected`: a duplicate email together
with mismatched passwords still yields the duplicate-email error. -/
theorem c6_witness :
    UserService.Register
        ⟨[⟨7, "a@x.com", "H", "inactive", 2, "", "", "", "", ""⟩], [], []⟩
        ⟨"a@x.com", "p1", "p2"⟩ (.ok "H2") (.ok 9) (.ok "tok") 20 21
        "482913" 0 (.ok ()) (.ok ()) =
      (.error "email already registered",
       ⟨[⟨7, "a@x.com", "H", "inactive", 2, "", "", "", "", ""⟩], [], []⟩, 0) :=
  c6_duplicate_email_rejected _ _
    ⟨7, "a@x.com", "H", "inactive", 2, "", "", "", "", ""⟩
    _ _ _ _ _ _ _ _ _ (by rfl)

/-- Claim C8: for every `ChangePasswordAfterVerify` call where the new
password verifies against the user's current (old) hash — the bcrypt compare
returns success — the operation fails with "new password cannot be same as
old password" and returns the database unchanged, so the stored hash is not
overwritten: the reused-password check runs before the store update. -/
theorem c8_reused_password_rejected
    (db : DB) (param : Model.ResetPasswordRequest) (user : Entity.User)
    (hash : String) (commitRes : Except String Unit)
    (huser : Repo.GetUser db.users ⟨some param.userID, none⟩ = .ok user)
    (hpw : param.newPassword = param.confirmPassword) :
    UserService.ChangePasswordAfterVerify db param (.ok hash) (.ok ())
        commitRes =
      (.error "new password cannot be same as old password", db) := by
  simp [UserService.ChangePasswordAfterVerify, huser, hpw]

/-- Witness for `c8_reused_password_rejected` at a concrete state. -/
theorem c8_witness :
    UserService.ChangePasswordAfterVerify
        ⟨[⟨7, "a@x.com", "H", "active", 2, "", "", "", "", ""⟩], [], []⟩
        ⟨7, "secret", "secret"⟩ (.ok "H2") (.ok ()) (.ok ()) =
      (.error "new password cannot be same as old password",
       ⟨[⟨7, "a@x.com", "H", "active", 2, "", "", "", "", ""⟩], [], []⟩) :=
  c8_reused_password_rejected _ _
    ⟨7, "a@x.com", "H", "active", 2, "", "", "", "", ""⟩ _ _ (by rfl) (by rfl)

/-- Claim C2: for a `Register` call that passes the duplicate-email and
password checks with successful hashing, id generation and token creation,
(i) a Notifier (mail send) failure makes the call fail with the mail error
and return the database unchanged — the User, Team and OtpCode rows written
inside the transaction are all rolled back and no mail went out; and
(ii) with a successful send and commit the call succeeds and appends exactly
one User with status "inactive", exactly one Team bound to that user,
exactly one OtpCode, with exactly one outbound mail. -/
theorem c2_register_notifier_atomicity
    (db : DB) (param : Model.UserRegister) (hash : String) (id : Nat)
    (token : String) (teamId otpId : Nat) (code : String) (otpAt : Int)
    (enf : String)
    (hfree : Repo.GetUser db.users ⟨none, some param.email⟩ = .error enf)
    (hpw : param.password = param.confirmPassword) :
    (∀ (em : String) (commitRes : Except String Unit),
      UserService.Register db param (.ok hash) (.ok id) (.ok token) teamId
          otpId code otpAt (.error em) commitRes = (.error em, db, 0)) ∧
    UserService.Register db param (.ok hash) (.ok id) (.ok token) teamId
        otpId code otpAt (.ok ()) (.ok ()) =
      (.ok token,
       ⟨db.users ++ [⟨id, param.email, hash, "inactive", 2, "", "", "", "", ""⟩],
        db.teams ++ [⟨teamId, "", "belum terverifikasi", id, 1⟩],
        db.otps ++ [⟨otpId, id, code, otpAt⟩]⟩, 1) := by
  constructor
  · intro em commitRes
    simp [UserService.Register, hfree, hpw]
  · simp [UserService.Register, Repo.CreateUser, Repo.CreateTeam,
      Repo.CreateOtp, hfree, hpw]

/-- Witness for `c2_register_notifier_atomicity` at a concrete state. -/
theorem c2_witness :
    (∀ (em : String) (commitRes : Except String Unit),
      UserService.Register ⟨[], [], []⟩ ⟨"b@x.com", "p", "p"⟩ (.ok "H")
          (.ok 9) (.ok "tok") 20 21 "482913" 0 (.error em) commitRes =
        (.error em, ⟨[], [], []⟩, 0)) ∧
    UserService.Register ⟨[], [], []⟩ ⟨"b@x.com", "p", "p"⟩ (.ok "H")
        (.ok 9) (.ok "tok") 20 21 "482913" 0 (.ok ()) (.ok ()) =
      (.ok "tok",
       ⟨[] ++ [⟨9, "b@x.com", "H", "inactive", 2, "", "", "", "", ""⟩],
        [] ++ [⟨20, "", "belum terverifikasi", 9, 1⟩],
        [] ++ [⟨21, 9, "482913", 0⟩]⟩, 1) :=
  c2_register_notifier_atomicity ⟨[], [], []⟩ ⟨"b@x.com", "p", "p"⟩
    "H" 9 "tok" 20 21 "482913" 0 "record not found" (by rfl) (by rfl)

/-- Claim C7: a `Login` call whose email is absent from the store and a
`Login` call whose email resolves to a user but whose password fails the
bcrypt check both fail, with the identical error "email or password is
wrong", so the caller cannot tell which field was wrong; in both cases the
database is returned unchanged. -/
theorem c7_login_error_indistinguishable
    (db : DB) (p1 p2 : Model.UserLogin) (u : Entity.User)
    (e1 ce : String) (cmp1 : Except String Unit)
    (tok1 tok2 : Except String String)
    (h1 : Repo.GetUser db.users ⟨none, some p1.email⟩ = .error e1)
    (h2 : Repo.GetUser db.users ⟨none, some p2.email⟩ = .ok u) :
    UserService.Login db p1 cmp1 tok1 =
      (.error "email or password is wrong", db) ∧
    UserService.Login db p2 (.error ce) tok2 =
      (.error "email or password is wrong", db) ∧
    (UserService.Login db p1 cmp1 tok1).1 =
      (UserService.Login db p2 (.error ce) tok2).1 := by
  refine ⟨?_, ?_, ?_⟩
  · simp [UserService.Login, h1]
  · simp [UserService.Login, h2]
  · simp [UserService.Login, h1, h2]

/-- Witness for `c7_login_error_indistinguishable` at a concrete state. -/
theorem c7_witness :
    UserService.Login
        ⟨[⟨7, "a@x.com", "H", "active", 2, "", "", "", "", ""⟩], [], []⟩
        ⟨"nobody@x.com", "p"⟩ (.ok ()) (.ok "tok") =
      (.error "email or password is wrong",
       ⟨[⟨7, "a@x.com", "H", "active", 2, "", "", "", "", ""⟩], [], []⟩) ∧
    UserService.Login
        ⟨[⟨7, "a@x.com", "H", "active", 2, "", "", "", "", ""⟩], [], []⟩
        ⟨"a@x.com", "wrong"⟩ (.error "mismatch") (.ok "tok") =
      (.error "email or password is wrong",
       ⟨[⟨7, "a@x.com", "H", "active", 2, "", "", "", "", ""⟩], [], []⟩) ∧
    (UserService.Login
        ⟨[⟨7, "a@x.com", "H", "active", 2, "", "", "", "", ""⟩], [], []⟩
        ⟨"nobody@x.com", "p"⟩ (.ok ()) (.ok "tok")).1 =
    (UserService.Login
        ⟨[⟨7, "a@x.com", "H", "active", 2, "", "", "", "", ""⟩], [], []⟩
        ⟨"a@x.com", "wrong"⟩ (.error "mismatch") (.ok "tok")).1 :=
  c7_login_error_indistinguishable _ _ _
    ⟨7, "a@x.com", "H", "active", 2, "", "", "", "", ""⟩
    "record not found" "mismatch" _ _ _ (by rfl) (by rfl)

/-- Claim C9: in `ChangePassword` (password-reset issuance), when the user is
found, the mail was sent, and token creation then fails, the call returns an
empty token with no error (the failure is swallowed, before commit, so the
database is unchanged); by contrast a `Register` call whose token creation
fails surfaces the error "failed to create token". -/
theorem c9_token_failure_swallowed
    (db db2 : DB) (email code : String) (otpId : Nat) (otpAt : Int)
    (te : String) (user : Entity.User) (commitRes : Except String Unit)
    (param2 : Model.UserRegister) (hash2 : String) (id2 : Nat)
    (teamId2 otpId2 : Nat) (code2 : String) (otpAt2 : Int) (enf : String)
    (mailRes2 : Except String Unit) (commitRes2 : Except String Unit)
    (huser : Repo.GetUser db.users ⟨none, some email⟩ = .ok user)
    (hfree : Repo.GetUser db2.users ⟨none, some param2.email⟩ = .error enf)
    (hpw2 : param2.password = param2.confirmPassword) :
    UserService.ChangePassword db email code otpId otpAt (.ok ())
        (.error te) commitRes = (.ok "", db, 1) ∧
    UserService.Register db2 param2 (.ok hash2) (.ok id2) (.error te)
        teamId2 otpId2 code2 otpAt2 mailRes2 commitRes2 =
      (.error "failed to create token", db2, 0) := by
  constructor
  · simp [UserService.ChangePassword, huser]
  · simp [UserService.Register, hfree, hpw2]

/-- Witness for `c9_token_failure_swallowed` at a concrete state. -/
theorem c9_witness :
    UserService.ChangePassword
        ⟨[⟨7, "a@x.com", "H", "active", 2, "", "", "", "", ""⟩], [], []⟩
        "a@x.com" "654321" 40 50 (.ok ()) (.error "jwt down") (.ok ()) =
      (.ok "",
       ⟨[⟨7, "a@x.com", "H", "active", 2, "", "", "", "", ""⟩], [], []⟩, 1) ∧
    UserService.Register ⟨[], [], []⟩ ⟨"b@x.com", "p", "p"⟩ (.ok "H")
        (.ok 9) (.error "jwt down") 20 21 "482913" 0 (.ok ()) (.ok ()) =
      (.error "failed to create token", ⟨[], [], []⟩, 0) :=
  c9_token_failure_swallowed _ _ "a@x.com" "654321" 40 50 "jwt down"
    ⟨7, "a@x.com", "H", "active", 2, "", "", "", "", ""⟩ _
    ⟨"b@x.com", "p", "p"⟩ "H" 9 20 21 "482913" 0 "record not found" _ _
    (by rfl) (by rfl) (by rfl)

/-- Claim C10: in `ChangePassword`, when token creation fails after the mail
was sent, the call returns before committing: the result is the empty token
with no error, exactly one mail went out, and the returned database equals
the initial one, so the OtpCode row created in the call does not persist;
consequently, provided the emailed code matches no pre-existing OTP row for
that user, a subsequent `VerifyOtpChangePassword` presenting that code fails
with the not-found error — the emailed code can never be verified. -/
theorem c10_reset_otp_rolled_back
    (db : DB) (email code : String) (otpId : Nat) (otpAt : Int)
    (te : String) (user : Entity.User) (commitRes : Except String Unit)
    (env2 : Except String Int) (now2 : Int) (commitRes2 : Except String Unit)
    (huser : Repo.GetUser db.users ⟨none, some email⟩ = .ok user)
    (hnew : ∀ o ∈ db.otps, ¬ (o.userID = user.userID ∧ o.code = code)) :
    UserService.ChangePassword db email code otpId otpAt (.ok ())
        (.error te) commitRes = (.ok "", db, 1) ∧
    (UserService.VerifyOtpChangePassword db ⟨user.userID, code⟩ env2 now2
        commitRes2).1 = .error "record not found" := by
  constructor
  · simp [UserService.ChangePassword, huser]
  · have habs := getOtp_userCode_absent db.otps user.userID code hnew
    simp [UserService.VerifyOtpChangePassword, habs]

/-- Witness for `c10_reset_otp_rolled_back` at a concrete state. -/
theorem c10_witness :
    UserService.ChangePassword
        ⟨[⟨7, "a@x.com", "H", "active", 2, "", "", "", "", ""⟩], [], []⟩
        "a@x.com" "654321" 40 50 (.ok ()) (.error "jwt down") (.ok ()) =
      (.ok "",
       ⟨[⟨7, "a@x.com", "H", "active", 2, "", "", "", "", ""⟩], [], []⟩, 1) ∧
    (UserService.VerifyOtpChangePassword
        ⟨[⟨7, "a@x.com", "H", "active", 2, "", "", "", "", ""⟩], [], []⟩
        ⟨7, "654321"⟩ (.ok 10) 55 (.ok ())).1 = .error "record not found" :=
  c10_reset_otp_rolled_back _ "a@x.com" "654321" 40 50 "jwt down"
    ⟨7, "a@x.com", "H", "active", 2, "", "", "", "", ""⟩ _ _ 55 _
    (by rfl) (by decide)

/-- Claim C3 (counterexample): at a concrete input where both token creation
and the mail send would fail, the source `Register` fails with "failed to
create token" while the spec-ordered pipeline — token issuance after the
Notifier send — fails with the mail error: the source does not perform its
steps in the claimed order (it issues the token directly after creating the
user, before the Team/OTP writes and the Notifier send). -/
theorem c3_counterexample :
    UserService.Register ⟨[], [], []⟩ ⟨"b@x.com", "p", "p"⟩ (.ok "H")
        (.ok 9) (.error "token backend down") 20 21 "482913" 0
        (.error "smtp down") (.ok ()) ≠
      RegisterSpecOrder ⟨[], [], []⟩ ⟨"b@x.com", "p", "p"⟩ (.ok "H")
        (.ok 9) (.error "token backend down") 20 21 "482913" 0
        (.error "smtp down") (.ok ()) := by
  decide

/-- Claim C3 (amended): `Register` performs its steps in exactly this order:
reject duplicate email, reject mismatched passwords, hash the password,
create the User (status inactive, participant role), issue the access token,
create the default Team bound to the user, generate and persist the OTP,
send it via the Notifier, then commit — token issuance happens directly
after user creation, before the Notifier send. Stated as: the source
function agrees with the amended-order step pipeline on every input. -/
theorem c3_register_order_amended (db : DB) (param : Model.UserRegister)
    (hashRes : Except String String) (idRes : Except String Nat)
    (tokenRes : Except String String) (teamId otpId : Nat) (code : String)
    (otpAt : Int) (mailRes : Except String Unit)
    (commitRes : Except String Unit) :
    UserService.Register db param hashRes idRes tokenRes teamId otpId code
        otpAt mailRes commitRes =
      RegisterOrderAmended db param hashRes idRes tokenRes teamId otpId code
        otpAt mailRes commitRes := by
  cases h : Repo.GetUser db.users ⟨none, some param.email⟩ <;>
    by_cases hpw : param.password = param.confirmPassword <;>
    cases hashRes <;> cases idRes <;> cases tokenRes <;> cases mailRes <;>
    cases commitRes <;>
    simp [UserService.Register, RegisterOrderAmended, runRegSteps,
      stepRejectTakenEmail, stepRejectPasswordMismatch, stepHashPassword,
      stepCreateUser, stepIssueToken, stepCreateTeam, stepCreateOtp,
      stepSendMail, stepCommit, Except.bind, h, hpw]
